import Mathlib

/-!
Verification of the vhost-net virtio device core
(`src/vmm/src/devices/virtio/net/vhost/device.rs`).

The Rust code is shallowly embedded: 64-bit feature bitmasks become `Nat`
(all shifts stay below 2^64, so no wrap occurs), fallible external
collaborator calls (kernel backend ioctls, tap ioctls) are modelled by an
environment record that fixes the result of each call, and the mutable
device is explicit state passed through each operation.
-/

namespace VhostNetModel

/-! ### Feature-bit and flag constants

Bit indices from the virtio specification bindings
(`devices/virtio/gen/virtio_net.rs`, `virtio_ring.rs`) and tap flag /
offload constants from the Linux `if_tun.h` bindings (`net/gen`).  These
generated binding modules are referenced by the device source but are not
part of the shown sources; the values are the standard virtio / Linux
ones the bindings are generated from. -/

def VIRTIO_NET_F_CSUM : Nat := 0
def VIRTIO_NET_F_GUEST_CSUM : Nat := 1
def VIRTIO_NET_F_MAC : Nat := 5
def VIRTIO_NET_F_GUEST_TSO4 : Nat := 7
def VIRTIO_NET_F_GUEST_TSO6 : Nat := 8
def VIRTIO_NET_F_GUEST_ECN : Nat := 9
def VIRTIO_NET_F_GUEST_UFO : Nat := 10
def VIRTIO_NET_F_HOST_TSO4 : Nat := 11
def VIRTIO_NET_F_HOST_UFO : Nat := 14
def VIRTIO_NET_F_MRG_RXBUF : Nat := 15
def VIRTIO_NET_F_STATUS : Nat := 16
def VIRTIO_NET_F_CTRL_VQ : Nat := 17
def VIRTIO_NET_F_MQ : Nat := 22
def VIRTIO_F_NOTIFY_ON_EMPTY : Nat := 24
def VIRTIO_RING_F_INDIRECT_DESC : Nat := 28
def VIRTIO_RING_F_EVENT_IDX : Nat := 29
def VIRTIO_F_VERSION_1 : Nat := 32

def IFF_TAP : Nat := 0x0002
def IFF_NO_PI : Nat := 0x1000
def IFF_VNET_HDR : Nat := 0x4000
def IFF_MULTI_QUEUE : Nat := 0x0100

def TUN_F_CSUM : Nat := 0x01
def TUN_F_TSO4 : Nat := 0x02
def TUN_F_TSO6 : Nat := 0x04
def TUN_F_TSO_ECN : Nat := 0x08
def TUN_F_UFO : Nat := 0x10

/-- Bitwise complement of a 64-bit value, as in the Rust `!x` on `u64`. -/
def u64_not (x : Nat) : Nat := x ^^^ (2 ^ 64 - 1)

/-! ### Error type

Embedding of `VhostNetError` (`net/vhost/mod.rs`).  The payloads of the
variants that wrap external errors (`TapError`, `io::Error`,
`vhost::Error`) are opaque to this core, so they are modelled as `Nat`
error codes. -/

inductive VhostNetError where
  | TapOpen (code : Nat)
  | TapSetOffload (code : Nat)
  | TapSetVnetHdrSize (code : Nat)
  | EventFd (code : Nat)
  | IoError (code : Nat)
  | VnetHeaderMissing
  | VhostOpen (code : Nat)
  | MissingFlags (msg : String)
  | VhostError (code : Nat)
deriving DecidableEq, Repr

/-- Embedding of `ActivateError` (`devices/virtio`): the variants the
device source can name. -/
inductive ActivateError where
  | Vhost (e : VhostNetError)
  | BadActivate
deriving DecidableEq, Repr

/-! ### Offload translator

`virtio_features_to_tap_offload` (`device.rs` lines 233-253), embedded
literally: each guard is the Rust test `features & (1 << BIT) != 0`. -/

def virtio_features_to_tap_offload (features : Nat) : Nat :=
  let tap_offloads : Nat := 0
  let tap_offloads :=
    if features &&& (1 <<< VIRTIO_NET_F_GUEST_CSUM) ≠ 0 then
      tap_offloads ||| TUN_F_CSUM else tap_offloads
  let tap_offloads :=
    if features &&& (1 <<< VIRTIO_NET_F_GUEST_TSO4) ≠ 0 then
      tap_offloads ||| TUN_F_TSO4 else tap_offloads
  let tap_offloads :=
    if features &&& (1 <<< VIRTIO_NET_F_GUEST_TSO6) ≠ 0 then
      tap_offloads ||| TUN_F_TSO6 else tap_offloads
  let tap_offloads :=
    if features &&& (1 <<< VIRTIO_NET_F_GUEST_ECN) ≠ 0 then
      tap_offloads ||| TUN_F_TSO_ECN else tap_offloads
  let tap_offloads :=
    if features &&& (1 <<< VIRTIO_NET_F_GUEST_UFO) ≠ 0 then
      tap_offloads ||| TUN_F_UFO else tap_offloads
  tap_offloads

/-! ### Tap validation and configuration -/

/-- A tap interface, as seen by this core: its reported interface flags.
The fallible configuration calls on it are modelled through `TapEnv`. -/
structure Tap where
  if_flags : Nat
deriving DecidableEq, Repr

/-- Results of the external tap ioctls issued by
`validate_and_configure_tap`: `none` models `Ok`, `some code` models the
wrapped `TapError`. -/
structure TapEnv where
  set_offload_err : Option Nat
  set_vnet_hdr_err : Option Nat

/-- Modelled from the spec: `vnet_hdr_len` (`net/device.rs`, outside the
shown sources) computes the device header length; the spec only calls it
"the device's computed header length", so it is an opaque constant here
(the claims do not depend on its value). -/
def vnet_hdr_len : Nat := 12

/-- The `required_flags` list built by `validate_and_configure_tap`
(`device.rs` lines 45-52): three fixed flags, plus multi-queue when more
than one queue pair is configured. -/
def required_flags (vq_pairs : Nat) : List (Nat × String) :=
  [(IFF_TAP, "IFF_TAP"), (IFF_NO_PI, "IFF_NO_PI"), (IFF_VNET_HDR, "IFF_VNET_HDR")]
    ++ (if vq_pairs > 1 then [(IFF_MULTI_QUEUE, "IFF_MULTI_QUEUE")] else [])

/-- The `filter_map` collecting the names of all missing flags
(`device.rs` lines 53-64): a flag is missing when `value & flags == 0`. -/
def missing_flags (flags : Nat) (vq_pairs : Nat) : List String :=
  (required_flags vq_pairs).filterMap
    (fun p => if p.1 &&& flags == 0 then some p.2 else none)

/-- Embedding of `validate_and_configure_tap` (`device.rs` lines 42-81). -/
def validate_and_configure_tap (tenv : TapEnv) (tap : Tap) (vq_pairs : Nat) :
    Except VhostNetError Unit :=
  let missing := missing_flags tap.if_flags vq_pairs
  if ¬ missing.isEmpty then
    .error (.MissingFlags (String.intercalate ", " missing))
  else
    match tenv.set_offload_err with
    | some e => .error (.TapSetOffload e)
    | none =>
      match tenv.set_vnet_hdr_err with
      | some e => .error (.TapSetVnetHdrSize e)
      | none => .ok ()

/-! ### Device state and the Net device -/

/-- Modelled from the spec: `DeviceState` (`devices/virtio/device.rs`,
outside the shown sources) is "{Inactive | Activated(memory-handle)}".
The guest memory handle is opaque to this core and modelled as a `Nat`
identifier. -/
inductive DeviceState where
  | Inactive
  | Activated (mem : Nat)
deriving DecidableEq, Repr

/-- Modelled from the spec: the query is "true only in the Activated
state". -/
def DeviceState.is_activated : DeviceState → Bool
  | .Inactive => false
  | .Activated _ => true

/-- One kernel backend handle (`VhostNet<GuestMemoryMmap>`): the memory
handle it was created over, and the feature set last applied to it via
`set_features` (`none` until a `set_features` call succeeds). -/
structure VhostHandle where
  mem : Nat
  features : Option Nat
deriving DecidableEq, Repr

/-- Results of the external kernel-backend and tap calls made during
activation, indexed by queue-pair index: `none` models success, `some
code` the wrapped error.  `get_features` gives the feature set the
backend handle at that index reports when the call succeeds. -/
structure VhostEnv where
  new_err : Nat → Option Nat
  set_owner_err : Nat → Option Nat
  get_features_err : Nat → Option Nat
  get_features : Nat → Nat
  set_features_err : Nat → Option Nat
  tap_set_offload_err : Nat → Option Nat

/-- The `Net` device (`device.rs` lines 85-108).  Fields this core never
reads or writes through the embedded operations (rate limiters, queue
lists, irq trigger internals, id) are dropped; `activate_evt_writes`
counts successful writes to the activation eventfd, and `config_space`
is the guest-visible configuration block as bytes. -/
structure Net where
  taps : List Tap
  avail_features : Nat
  acked_features : Nat
  handles : List VhostHandle
  config_space : List Nat
  guest_mac : Option (List Nat)
  device_state : DeviceState
  activate_evt_writes : Nat
deriving DecidableEq, Repr

/-- Outcome of a `&mut self` operation: normal return, an `Err` return,
or a Rust panic (out-of-bounds index). -/
inductive ActOutcome where
  | ok
  | err (e : VhostNetError)
  | panicked
deriving DecidableEq, Repr

/-- The handle-creation loop of `do_device_activate` (`device.rs` lines
203-206): push one freshly created `VhostNet` handle per queue pair,
stopping at the first creation error (handles pushed so far remain). -/
def create_handles (env : VhostEnv) (mem : Nat) :
    Net → Nat → Net × Option VhostNetError
  | net, 0 => (net, none)
  | net, n + 1 =>
    match env.new_err net.handles.length with
    | some e => (net, some (.VhostError e))
    | none =>
      create_handles env mem
        { net with handles := net.handles ++ [{ mem := mem, features := none }] }
        n

/-- Embedding of `setup_vhost_backend` (`device.rs` lines 212-230):
for each queue-pair index in ascending order, `set_owner()`, read the
backend handle features, apply `acked_features & get_features()` via
`set_features`, then set the tap offload computed from `acked_features`.
The first error aborts the loop; `self.handles[idx]` and
`self.taps[idx]` panic when out of bounds. -/
def setup_vhost_backend (env : VhostEnv) :
    Net → Nat → Nat → Net × ActOutcome
  | net, _, 0 => (net, .ok)
  | net, idx, n + 1 =>
    match net.handles[idx]?, net.taps[idx]? with
    | some h, some _ =>
      match env.set_owner_err idx with
      | some e => (net, .err (.VhostError e))
      | none =>
        match env.get_features_err idx with
        | some e => (net, .err (.VhostError e))
        | none =>
          let avail_features := env.get_features idx
          let features := net.acked_features &&& avail_features
          match env.set_features_err idx with
          | some e => (net, .err (.VhostError e))
          | none =>
            let net' := { net with
              handles := net.handles.set idx { h with features := some features } }
            match env.tap_set_offload_err idx with
            | some e => (net', .err (.VhostError e))
            | none => setup_vhost_backend env net' (idx + 1) n
    | _, _ => (net, .panicked)

/-- Embedding of `do_device_activate` (`device.rs` lines 201-210):
create the backend handles only when `handles` is empty, then run the
per-queue-pair backend setup. -/
def do_device_activate (env : VhostEnv) (mem : Nat) (net : Net) (vq_pairs : Nat) :
    Net × ActOutcome :=
  let step :=
    if net.handles.isEmpty then create_handles env mem net vq_pairs
    else (net, none)
  match step with
  | (net1, some e) => (net1, .err e)
  | (net1, none) => setup_vhost_backend env net1 0 vq_pairs

/-- Embedding of `Net::activate` (`device.rs` lines 324-338) exactly as
written: the queue-pair count is the number of taps, the result of
`do_device_activate` is dropped, the state transition to `Activated`
and the `activate_evt` write are commented out in the source, and the
function returns `Ok(())` unconditionally. -/
def Net.activate (env : VhostEnv) (mem : Nat) (net : Net) :
    Net × Except ActivateError Unit :=
  let vq_pairs := net.taps.length
  let step := do_device_activate env mem net vq_pairs
  (step.1, .ok ())

/-- Embedding of `Net::is_activated` (`device.rs` lines 340-342). -/
def Net.is_activated (net : Net) : Bool :=
  net.device_state.is_activated

/-- Embedding of `Net::set_acked_features` (`device.rs` lines 264-266):
the argument is stored verbatim. -/
def Net.set_acked_features (net : Net) (acked_features : Nat) : Net :=
  { net with acked_features := acked_features }

/-- Embedding of `Net::avail_features` (`device.rs` lines 256-258). -/
def Net.get_avail_features (net : Net) : Nat :=
  net.avail_features

/-- Embedding of `Net::read_config` (`device.rs` lines 292-306) exactly
as written: the whole body is commented out, so the call reads nothing
and leaves the destination buffer as it was; the receiver is `&self`,
so the device cannot be mutated.  The embedding returns the device and
the destination buffer contents as they stand after the call. -/
def Net.read_config (net : Net) (_offset : Nat) (data : List Nat) : Net × List Nat :=
  (net, data)

/-- Embedding of `Net::write_config` (`device.rs` lines 308-322) exactly
as written: the whole body is commented out, so the call is a no-op on
the device. -/
def Net.write_config (net : Net) (_offset : Nat) (_data : List Nat) : Net :=
  net

/-! ### Construction -/

def DEFAULT_MTU : Nat := 1500

/-- Modelled from the spec: `Tap::into_mq_taps` (tap collaborator,
outside the shown sources) duplicates the tap into one tap per queue
pair (the spec interface `duplicate_into(n) -> [Tap]`). -/
def into_mq_taps (tap : Tap) (vq_pairs : Nat) : List Tap :=
  List.replicate vq_pairs tap

/-- Modelled from the spec: `ConfigSpace::setup_config_space`
(`net/device.rs`, outside the shown sources) fills the guest-visible
configuration block (MAC, queue-pair count, MTU, status).  Per the spec
the advertised feature bitmask equals the fixed base set conditionally
widened with the multi-queue bits, so this call is modelled as leaving
`avail_features` unchanged; the block layout below is only a stand-in,
no claim depends on it. -/
def setup_config_space (guest_mac : Option (List Nat)) (vq_pairs mtu : Nat) :
    List Nat :=
  (guest_mac.getD (List.replicate 6 0))
    ++ [vq_pairs % 256, vq_pairs / 256 % 256, mtu % 256, mtu / 256 % 256, 0, 0]

/-- The fixed base feature set of `new_with_tap` (`device.rs` lines
129-139). -/
def base_avail_features : Nat :=
  (1 <<< VIRTIO_NET_F_GUEST_CSUM)
    ||| (1 <<< VIRTIO_NET_F_CSUM)
    ||| (1 <<< VIRTIO_NET_F_GUEST_TSO4)
    ||| (1 <<< VIRTIO_NET_F_GUEST_UFO)
    ||| (1 <<< VIRTIO_NET_F_HOST_TSO4)
    ||| (1 <<< VIRTIO_NET_F_HOST_UFO)
    ||| (1 <<< VIRTIO_NET_F_MRG_RXBUF)
    ||| (1 <<< VIRTIO_RING_F_INDIRECT_DESC)
    ||| (1 <<< VIRTIO_RING_F_EVENT_IDX)
    ||| (1 <<< VIRTIO_F_NOTIFY_ON_EMPTY)
    ||| (1 <<< VIRTIO_F_VERSION_1)

/-- The per-tap validation loop of `new_with_tap` (`device.rs` lines
125-127), with the external tap ioctl results supplied per tap index. -/
def validate_taps (tenvs : Nat → TapEnv) (vq_pairs : Nat) :
    List Tap → Nat → Except VhostNetError Unit
  | [], _ => .ok ()
  | t :: rest, i =>
    match validate_and_configure_tap (tenvs i) t vq_pairs with
    | .error e => .error e
    | .ok _ => validate_taps tenvs vq_pairs rest (i + 1)

/-- Embedding of `Net::new_with_tap` (`device.rs` lines 112-176): derive
the queue-pair count from the queue-size list, split the tap, validate
and configure every tap, compute `avail_features` (base set, widened
with the multi-queue and control-queue bits when more than one queue
pair), set up the configuration block, and return the `Inactive` device
with `acked_features = 0` and no backend handles.  Eventfd creation
(a host resource acquisition with no protocol content) is modelled as
succeeding. -/
def new_with_tap (tenvs : Nat → TapEnv) (tap : Tap)
    (guest_mac : Option (List Nat)) (queue_sizes : List Nat) :
    Except VhostNetError Net :=
  let vq_pairs := queue_sizes.length / 2
  let taps := into_mq_taps tap vq_pairs
  match validate_taps tenvs vq_pairs taps 0 with
  | .error e => .error e
  | .ok _ =>
    let avail_features := base_avail_features
    let avail_features :=
      if vq_pairs > 1 then
        avail_features ||| ((1 <<< VIRTIO_NET_F_MQ) ||| (1 <<< VIRTIO_NET_F_CTRL_VQ))
      else avail_features
    .ok { taps := taps
          avail_features := avail_features
          acked_features := 0
          handles := []
          config_space := setup_config_space guest_mac vq_pairs DEFAULT_MTU
          guest_mac := guest_mac
          device_state := .Inactive
          activate_evt_writes := 0 }

/-- A sequence of activation calls, each with its own external-call
environment and guest memory handle, with no intervening deactivation
(the device exposes none). -/
def activate_seq (calls : List (VhostEnv × Nat)) (net : Net) : Net :=
  calls.foldl (fun n c => (Net.activate c.1 c.2 n).1) net

/-- The subset invariant of the spec data model:
`acked_features & !avail_features == 0` on 64-bit masks. -/
def acked_subset_inv (net : Net) : Prop :=
  net.acked_features &&& u64_not net.avail_features = 0

/-! ### Concrete sample inputs

Used by the concrete evaluation theorems: a tap whose flags carry
IFF_TAP, IFF_NO_PI and IFF_VNET_HDR (plus IFF_MULTI_QUEUE for the
two-queue-pair device), tap and vhost environments in which every
external call succeeds, and one in which `set_owner` fails on the
second queue pair. -/

def sampleTap : Tap := { if_flags := 0x5002 }

def sampleTapMq : Tap := { if_flags := 0x5102 }

def allOkTapEnv : TapEnv := { set_offload_err := none, set_vnet_hdr_err := none }

def allOkEnv : VhostEnv :=
  { new_err := fun _ => none
    set_owner_err := fun _ => none
    get_features_err := fun _ => none
    get_features := fun _ => 0xFFFF
    set_features_err := fun _ => none
    tap_set_offload_err := fun _ => none }

/-- Environment in which the second queue pair (index 1) fails its
`set_owner` call with error code 13; everything else succeeds. -/
def ownerFailEnv : VhostEnv :=
  { allOkEnv with set_owner_err := fun i => if i == 1 then some 13 else none }

/-- The device `new_with_tap` builds from `sampleTap` with queue sizes
`[256, 256]` (one queue pair). -/
def sampleNet : Net :=
  { taps := [sampleTap]
    avail_features := base_avail_features
    acked_features := 0
    handles := []
    config_space := setup_config_space none 1 DEFAULT_MTU
    guest_mac := none
    device_state := .Inactive
    activate_evt_writes := 0 }

/-- The device `new_with_tap` builds from `sampleTapMq` with queue
sizes `[256, 256, 256, 256]` (two queue pairs). -/
def sampleNetMq : Net :=
  { taps := [sampleTapMq, sampleTapMq]
    avail_features :=
      base_avail_features ||| ((1 <<< VIRTIO_NET_F_MQ) ||| (1 <<< VIRTIO_NET_F_CTRL_VQ))
    acked_features := 0
    handles := []
    config_space := setup_config_space none 2 DEFAULT_MTU
    guest_mac := none
    device_state := .Inactive
    activate_evt_writes := 0 }

/-! ### Helper lemmas -/

theorem land_shift_ne_iff (F k : Nat) : (F &&& (1 <<< k) ≠ 0) ↔ F.testBit k = true := by
  rw [Nat.shiftLeft_eq, one_mul, Nat.and_two_pow]
  cases h : F.testBit k <;> simp [h]

/-- The offload translator reads only the five guest offload bits of
its input. -/
theorem offload_congr (F G : Nat)
    (h : ∀ k, k ∈ [VIRTIO_NET_F_GUEST_CSUM, VIRTIO_NET_F_GUEST_TSO4,
      VIRTIO_NET_F_GUEST_TSO6, VIRTIO_NET_F_GUEST_ECN, VIRTIO_NET_F_GUEST_UFO] →
      F.testBit k = G.testBit k) :
    virtio_features_to_tap_offload F = virtio_features_to_tap_offload G := by
  have h1 := h VIRTIO_NET_F_GUEST_CSUM (by simp)
  have h7 := h VIRTIO_NET_F_GUEST_TSO4 (by simp)
  have h8 := h VIRTIO_NET_F_GUEST_TSO6 (by simp)
  have h9 := h VIRTIO_NET_F_GUEST_ECN (by simp)
  have h10 := h VIRTIO_NET_F_GUEST_UFO (by simp)
  simp only [virtio_features_to_tap_offload, land_shift_ne_iff, h1, h7, h8, h9, h10]

/-- Each tap offload output bit is present iff the corresponding guest
feature bit is present in the input. -/
theorem offload_bits (F : Nat) :
    ((virtio_features_to_tap_offload F &&& TUN_F_CSUM ≠ 0) ↔
      (F &&& (1 <<< VIRTIO_NET_F_GUEST_CSUM) ≠ 0)) ∧
    ((virtio_features_to_tap_offload F &&& TUN_F_TSO4 ≠ 0) ↔
      (F &&& (1 <<< VIRTIO_NET_F_GUEST_TSO4) ≠ 0)) ∧
    ((virtio_features_to_tap_offload F &&& TUN_F_TSO6 ≠ 0) ↔
      (F &&& (1 <<< VIRTIO_NET_F_GUEST_TSO6) ≠ 0)) ∧
    ((virtio_features_to_tap_offload F &&& TUN_F_TSO_ECN ≠ 0) ↔
      (F &&& (1 <<< VIRTIO_NET_F_GUEST_ECN) ≠ 0)) ∧
    ((virtio_features_to_tap_offload F &&& TUN_F_UFO ≠ 0) ↔
      (F &&& (1 <<< VIRTIO_NET_F_GUEST_UFO) ≠ 0)) := by
  cases h1 : F.testBit VIRTIO_NET_F_GUEST_CSUM <;>
    cases h7 : F.testBit VIRTIO_NET_F_GUEST_TSO4 <;>
    cases h8 : F.testBit VIRTIO_NET_F_GUEST_TSO6 <;>
    cases h9 : F.testBit VIRTIO_NET_F_GUEST_ECN <;>
    cases h10 : F.testBit VIRTIO_NET_F_GUEST_UFO <;>
    simp [virtio_features_to_tap_offload, land_shift_ne_iff, h1, h7, h8, h9, h10] <;>
    decide

/-- In the required-flag table every display name determines its flag
value. -/
theorem required_flags_name_inj (vq_pairs : Nat) (v1 v2 : Nat) (n : String)
    (h1 : (v1, n) ∈ required_flags vq_pairs)
    (h2 : (v2, n) ∈ required_flags vq_pairs) : v1 = v2 := by
  by_cases hq : vq_pairs > 1
  · simp [required_flags, hq, Prod.ext_iff] at h1 h2
    rcases h1 with ⟨rfl, rfl⟩ | ⟨rfl, rfl⟩ | ⟨rfl, rfl⟩ | ⟨rfl, rfl⟩ <;>
      rcases h2 with ⟨rfl, h⟩ | ⟨rfl, h⟩ | ⟨rfl, h⟩ | ⟨rfl, h⟩ <;> simp_all
  · simp [required_flags, hq, Prod.ext_iff] at h1 h2
    rcases h1 with ⟨rfl, rfl⟩ | ⟨rfl, rfl⟩ | ⟨rfl, rfl⟩ <;>
      rcases h2 with ⟨rfl, h⟩ | ⟨rfl, h⟩ | ⟨rfl, h⟩ <;> simp_all

/-- A name is collected into `missing_flags` exactly when its flag is
absent from the interface flag mask. -/
theorem mem_missing_iff (flags vq_pairs : Nat) (v : Nat) (n : String)
    (hmem : (v, n) ∈ required_flags vq_pairs) :
    n ∈ missing_flags flags vq_pairs ↔ v &&& flags = 0 := by
  unfold missing_flags
  rw [List.mem_filterMap]
  constructor
  · rintro ⟨⟨v2, n2⟩, hm, hif⟩
    by_cases hc : (v2 &&& flags == 0) = true
    · simp only [hc, if_true, Option.some.injEq] at hif
      have hv2 : v2 = v := required_flags_name_inj vq_pairs v2 v n (hif ▸ hm) hmem
      exact hv2 ▸ beq_iff_eq.mp hc
    · simp [hc] at hif
  · intro hv
    exact ⟨(v, n), hmem, by simp [hv]⟩

/-- When any required flag is missing, validation returns the single
`MissingFlags` error carrying the comma-joined missing names. -/
theorem validate_missing_error (tenv : TapEnv) (tap : Tap) (vq_pairs : Nat)
    (h : missing_flags tap.if_flags vq_pairs ≠ []) :
    validate_and_configure_tap tenv tap vq_pairs =
      .error (.MissingFlags
        (String.intercalate ", " (missing_flags tap.if_flags vq_pairs))) := by
  have he : (missing_flags tap.if_flags vq_pairs).isEmpty = false := by
    cases hm : missing_flags tap.if_flags vq_pairs with
    | nil => exact absurd hm h
    | cons a l => rfl
  simp [validate_and_configure_tap, he]

/-- Handle creation touches only `handles`, and pushes at most one
handle per requested queue pair. -/
theorem create_handles_fields (env : VhostEnv) (mem : Nat) :
    ∀ (n : Nat) (net : Net),
      (create_handles env mem net n).1.taps = net.taps ∧
      (create_handles env mem net n).1.avail_features = net.avail_features ∧
      (create_handles env mem net n).1.acked_features = net.acked_features ∧
      (create_handles env mem net n).1.handles.length ≤ net.handles.length + n := by
  intro n
  induction n with
  | zero => intro net; simp [create_handles]
  | succ n ih =>
    intro net
    cases h : env.new_err net.handles.length with
    | some e => simp [create_handles, h]
    | none =>
      obtain ⟨ht, hav, hac, hlen⟩ :=
        ih { net with handles := net.handles ++ [{ mem := mem, features := none }] }
      simp [create_handles, h]
      simp at ht hav hac hlen
      exact ⟨ht, hav, hac, by omega⟩

/-- Backend setup touches only the `handles` entries, preserving every
other field and the number of handles. -/
theorem setup_fields (env : VhostEnv) :
    ∀ (n idx : Nat) (net : Net),
      (setup_vhost_backend env net idx n).1.taps = net.taps ∧
      (setup_vhost_backend env net idx n).1.avail_features = net.avail_features ∧
      (setup_vhost_backend env net idx n).1.acked_features = net.acked_features ∧
      (setup_vhost_backend env net idx n).1.handles.length = net.handles.length := by
  intro n
  induction n with
  | zero => intro idx net; simp [setup_vhost_backend]
  | succ n ih =>
    intro idx net
    cases hH : net.handles[idx]? with
    | none => simp [setup_vhost_backend, hH]
    | some h =>
      cases hT : net.taps[idx]? with
      | none => simp [setup_vhost_backend, hH, hT]
      | some t =>
        cases hO : env.set_owner_err idx with
        | some e => simp [setup_vhost_backend, hH, hT, hO]
        | none =>
          cases hG : env.get_features_err idx with
          | some e => simp [setup_vhost_backend, hH, hT, hO, hG]
          | none =>
            cases hS : env.set_features_err idx with
            | some e => simp [setup_vhost_backend, hH, hT, hO, hG, hS]
            | none =>
              cases hF : env.tap_set_offload_err idx with
              | some e => simp [setup_vhost_backend, hH, hT, hO, hG, hS, hF]
              | none =>
                obtain ⟨ht, hav, hac, hlen⟩ := ih (idx + 1)
                  { net with handles := (net.handles.set idx { h with features := some (net.acked_features &&& env.get_features idx) }) }
                simp [setup_vhost_backend, hH, hT, hO, hG, hS, hF]
                simp at ht hav hac hlen
                exact ⟨ht, hav, hac, hlen⟩

/-- Backend setup starting at `idx` leaves the handles below `idx`
untouched. -/
theorem setup_untouched (env : VhostEnv) :
    ∀ (n idx : Nat) (net : Net) (j : Nat), j < idx →
      (setup_vhost_backend env net idx n).1.handles[j]? = net.handles[j]? := by
  intro n
  induction n with
  | zero => intro idx net j hj; simp [setup_vhost_backend]
  | succ n ih =>
    intro idx net j hj
    cases hH : net.handles[idx]? with
    | none => simp [setup_vhost_backend, hH]
    | some h =>
      cases hT : net.taps[idx]? with
      | none => simp [setup_vhost_backend, hH, hT]
      | some t =>
        cases hO : env.set_owner_err idx with
        | some e => simp [setup_vhost_backend, hH, hT, hO]
        | none =>
          cases hG : env.get_features_err idx with
          | some e => simp [setup_vhost_backend, hH, hT, hO, hG]
          | none =>
            cases hS : env.set_features_err idx with
            | some e => simp [setup_vhost_backend, hH, hT, hO, hG, hS]
            | none =>
              cases hF : env.tap_set_offload_err idx with
              | some e =>
                simp only [setup_vhost_backend, hH, hT, hO, hG, hS, hF]
                exact List.getElem?_set_ne (by omega)
              | none =>
                have h1 := ih (idx + 1)
                  { net with handles := (net.handles.set idx { h with features := some (net.acked_features &&& env.get_features idx) }) }
                  j (by omega)
                simp only [setup_vhost_backend, hH, hT, hO, hG, hS, hF]
                rw [h1]
                exact List.getElem?_set_ne (by omega)

/-- When backend setup succeeds, every processed handle carries exactly
the intersection of the device acked features and the features that
handle reported. -/
theorem setup_ok_features (env : VhostEnv) :
    ∀ (n idx : Nat) (net : Net),
      (setup_vhost_backend env net idx n).2 = .ok →
      ∀ j, idx ≤ j → j < idx + n →
        ∃ h, net.handles[j]? = some h ∧
          (setup_vhost_backend env net idx n).1.handles[j]? =
            some { mem := h.mem,
                   features := some (net.acked_features &&& env.get_features j) } := by
  intro n
  induction n with
  | zero => intro idx net _ j hj1 hj2; omega
  | succ n ih =>
    intro idx net hok j hj1 hj2
    cases hH : net.handles[idx]? with
    | none => simp [setup_vhost_backend, hH] at hok
    | some h =>
      cases hT : net.taps[idx]? with
      | none => simp [setup_vhost_backend, hH, hT] at hok
      | some t =>
        cases hO : env.set_owner_err idx with
        | some e => simp [setup_vhost_backend, hH, hT, hO] at hok
        | none =>
          cases hG : env.get_features_err idx with
          | some e => simp [setup_vhost_backend, hH, hT, hO, hG] at hok
          | none =>
            cases hS : env.set_features_err idx with
            | some e => simp [setup_vhost_backend, hH, hT, hO, hG, hS] at hok
            | none =>
              cases hF : env.tap_set_offload_err idx with
              | some e => simp [setup_vhost_backend, hH, hT, hO, hG, hS, hF] at hok
              | none =>
                simp only [setup_vhost_backend, hH, hT, hO, hG, hS, hF] at hok ⊢
                by_cases hje : j = idx
                · subst hje
                  refine ⟨h, hH, ?_⟩
                  rw [setup_untouched env n (j + 1) _ j (by omega)]
                  have hlt : j < net.handles.length :=
                    (List.getElem?_eq_some.mp hH).1
                  simp [List.getElem?_set_self (by simpa using hlt)]
                · obtain ⟨h2, hh2, hres⟩ := ih (idx + 1)
                    { net with handles := (net.handles.set idx { h with features := some (net.acked_features &&& env.get_features idx) }) }
                    hok j (by omega) (by omega)
                  rw [List.getElem?_set_ne (by omega)] at hh2
                  exact ⟨h2, hh2, hres⟩

/-- Shape of a successfully constructed device: queue-pair count, zero
acked features, no handles, `Inactive` state, and the advertised
feature mask. -/
theorem new_with_tap_ok (tenvs : Nat → TapEnv) (tap : Tap)
    (gm : Option (List Nat)) (qs : List Nat) (net : Net)
    (h : new_with_tap tenvs tap gm qs = .ok net) :
    net.taps.length = qs.length / 2 ∧
    net.acked_features = 0 ∧
    net.handles = [] ∧
    net.device_state = .Inactive ∧
    net.avail_features =
      (if qs.length / 2 > 1 then
        base_avail_features ||| ((1 <<< VIRTIO_NET_F_MQ) ||| (1 <<< VIRTIO_NET_F_CTRL_VQ))
      else base_avail_features) := by
  simp only [new_with_tap] at h
  cases hv : validate_taps tenvs (qs.length / 2) (into_mq_taps tap (qs.length / 2)) 0 with
  | error e => rw [hv] at h; exact absurd h (by simp)
  | ok u =>
    rw [hv] at h
    simp only [Except.ok.injEq] at h
    subst h
    refine ⟨by simp [into_mq_taps], rfl, rfl, rfl, rfl⟩

/-- Activation preserves the feature masks and the taps, never shrinks
or grows the handles past the number of taps, and when handles already
exist it creates none. -/
theorem activate_fields (env : VhostEnv) (mem : Nat) (net : Net) :
    (Net.activate env mem net).1.taps = net.taps ∧
    (Net.activate env mem net).1.avail_features = net.avail_features ∧
    (Net.activate env mem net).1.acked_features = net.acked_features ∧
    (Net.activate env mem net).1.handles.length ≤
      max net.handles.length net.taps.length ∧
    (net.handles.isEmpty = false →
      (Net.activate env mem net).1.handles.length = net.handles.length) := by
  unfold Net.activate do_device_activate
  by_cases hemp : net.handles.isEmpty = true
  · have hnil : net.handles = [] := by
      cases hl : net.handles with
      | nil => rfl
      | cons a l => rw [hl] at hemp; exact absurd hemp (by simp)
    rcases hcr : create_handles env mem net net.taps.length with ⟨net1, oe⟩
    obtain ⟨ht, hav, hac, hlen⟩ := create_handles_fields env mem net.taps.length net
    rw [hcr] at ht hav hac hlen
    rw [hnil] at hlen
    simp only [List.length_nil, Nat.zero_add] at hlen
    cases oe with
    | some e =>
      simp only [hemp, if_true, hcr]
      exact ⟨ht, hav, hac, le_trans hlen (le_max_right _ _),
        fun hf => absurd hf (by decide)⟩
    | none =>
      obtain ⟨st, sav, sac, slen⟩ := setup_fields env net.taps.length 0 net1
      simp only [hemp, if_true, hcr]
      refine ⟨st.trans ht, sav.trans hav, sac.trans hac, ?_,
        fun hf => absurd hf (by decide)⟩
      exact le_trans (le_trans (le_of_eq slen) hlen) (le_max_right _ _)
  · have hf : net.handles.isEmpty = false := by
      cases hb : net.handles.isEmpty with
      | false => rfl
      | true => exact absurd hb hemp
    obtain ⟨st, sav, sac, slen⟩ := setup_fields env net.taps.length 0 net
    rw [hf]
    exact ⟨st, sav, sac, le_trans (le_of_eq slen) (le_max_left _ _), fun _ => slen⟩

/-! ### Claim theorems -/

/-- C5: the offload translator is a pure function of the 64-bit feature
bitmask: calling it twice with the same input yields identical output,
each of the five tap offload output bits (checksum, TSO4, TSO6,
TSO-with-ECN, UFO) is set iff its corresponding guest feature bit
(guest-checksum, guest-TSO4, guest-TSO6, guest-ECN, guest-UFO) is set
in the input, and no other input bit affects the output. -/
theorem offload_translator_pure (F : Nat) :
    virtio_features_to_tap_offload F = virtio_features_to_tap_offload F ∧
    (((virtio_features_to_tap_offload F &&& TUN_F_CSUM ≠ 0) ↔
        (F &&& (1 <<< VIRTIO_NET_F_GUEST_CSUM) ≠ 0)) ∧
      ((virtio_features_to_tap_offload F &&& TUN_F_TSO4 ≠ 0) ↔
        (F &&& (1 <<< VIRTIO_NET_F_GUEST_TSO4) ≠ 0)) ∧
      ((virtio_features_to_tap_offload F &&& TUN_F_TSO6 ≠ 0) ↔
        (F &&& (1 <<< VIRTIO_NET_F_GUEST_TSO6) ≠ 0)) ∧
      ((virtio_features_to_tap_offload F &&& TUN_F_TSO_ECN ≠ 0) ↔
        (F &&& (1 <<< VIRTIO_NET_F_GUEST_ECN) ≠ 0)) ∧
      ((virtio_features_to_tap_offload F &&& TUN_F_UFO ≠ 0) ↔
        (F &&& (1 <<< VIRTIO_NET_F_GUEST_UFO) ≠ 0))) ∧
    (∀ G : Nat,
      (∀ k, k ∈ [VIRTIO_NET_F_GUEST_CSUM, VIRTIO_NET_F_GUEST_TSO4,
        VIRTIO_NET_F_GUEST_TSO6, VIRTIO_NET_F_GUEST_ECN, VIRTIO_NET_F_GUEST_UFO] →
        F.testBit k = G.testBit k) →
      virtio_features_to_tap_offload F = virtio_features_to_tap_offload G) :=
  ⟨rfl, offload_bits F, fun G h => offload_congr F G h⟩

/-- Witness for C5: two inputs agreeing on the five guest offload bits
(2 sets only guest-checksum; 6 additionally sets bit 2, which is not an
input to the translator) produce identical output. -/
theorem offload_translator_pure_witness :
    virtio_features_to_tap_offload 2 = virtio_features_to_tap_offload 6 :=
  (offload_translator_pure 2).2.2 6 (by decide)

/-- C6: tap validation checks every required flag (TAP, no-packet-info,
vnet-header, plus multi-queue exactly when more than one queue pair),
collects every missing flag without short-circuiting, and fails with a
single `MissingFlags` error whose message is the comma-joined list of
exactly the missing flag names. -/
theorem tap_validation_collects_missing_flags (flags vq_pairs : Nat) (tenv : TapEnv) :
    ((IFF_TAP, "IFF_TAP") ∈ required_flags vq_pairs ∧
      (IFF_NO_PI, "IFF_NO_PI") ∈ required_flags vq_pairs ∧
      (IFF_VNET_HDR, "IFF_VNET_HDR") ∈ required_flags vq_pairs ∧
      ((IFF_MULTI_QUEUE, "IFF_MULTI_QUEUE") ∈ required_flags vq_pairs ↔ 1 < vq_pairs)) ∧
    (∀ v n, (v, n) ∈ required_flags vq_pairs →
      (n ∈ missing_flags flags vq_pairs ↔ v &&& flags = 0)) ∧
    (missing_flags flags vq_pairs ≠ [] →
      validate_and_configure_tap tenv { if_flags := flags } vq_pairs =
        .error (.MissingFlags
          (String.intercalate ", " (missing_flags flags vq_pairs)))) := by
  refine ⟨?_, fun v n hmem => mem_missing_iff flags vq_pairs v n hmem,
    fun h => validate_missing_error tenv { if_flags := flags } vq_pairs h⟩
  by_cases hq : vq_pairs > 1 <;> simp [required_flags, hq]

/-- Witness for C6, on the scenario from the spec: an interface with
only the vnet-header flag, one queue pair: the missing set is
{IFF_TAP, IFF_NO_PI} and the error message joins exactly those two
names. -/
theorem tap_validation_collects_missing_flags_witness :
    "IFF_TAP" ∈ missing_flags 0x4000 1 ∧
    validate_and_configure_tap allOkTapEnv { if_flags := 0x4000 } 1 =
      .error (.MissingFlags (String.intercalate ", " (missing_flags 0x4000 1))) :=
  ⟨((tap_validation_collects_missing_flags 0x4000 1 allOkTapEnv).2.1
      IFF_TAP "IFF_TAP" (by decide)).mpr (by decide),
    (tap_validation_collects_missing_flags 0x4000 1 allOkTapEnv).2.2 (by decide)⟩

/-- C1: divergence witness for the activation success path.  A device
freshly built by `new_with_tap` is activated under an environment in
which every backend setup call succeeds; `do_device_activate` reports
success, `activate` returns `Ok`, yet the device state is still
`Inactive`, `is_activated()` stays false, and the activation eventfd
was never written: the transition and signal the claim requires are
missing from the code (the source drops the setup result and leaves the
commit/signal lines commented out). -/
theorem activate_returns_ok_without_transition :
    new_with_tap (fun _ => allOkTapEnv) sampleTap none [256, 256] = .ok sampleNet ∧
    (do_device_activate allOkEnv 7 sampleNet 1).2 = .ok ∧
    (Net.activate allOkEnv 7 sampleNet).2 = .ok () ∧
    (Net.activate allOkEnv 7 sampleNet).1.device_state = .Inactive ∧
    Net.is_activated (Net.activate allOkEnv 7 sampleNet).1 = false ∧
    (Net.activate allOkEnv 7 sampleNet).1.activate_evt_writes = 0 :=
  ⟨rfl, by decide, rfl, by decide, by decide, by decide⟩

/-- C2: divergence witness for the activation failure path.  On a
two-queue-pair device an environment fails `set_owner` on the second
queue pair; the inner `do_device_activate` returns that first error,
the device correctly remains `Inactive`, but `activate` still returns
`Ok(())` instead of the error: the code drops the setup result. -/
theorem activate_swallows_setup_error :
    new_with_tap (fun _ => allOkTapEnv) sampleTapMq none [256, 256, 256, 256] =
      .ok sampleNetMq ∧
    (do_device_activate ownerFailEnv 7 sampleNetMq 2).2 = .err (.VhostError 13) ∧
    (Net.activate ownerFailEnv 7 sampleNetMq).2 = .ok () ∧
    (Net.activate ownerFailEnv 7 sampleNetMq).1.device_state = .Inactive ∧
    Net.is_activated (Net.activate ownerFailEnv 7 sampleNetMq).1 = false :=
  ⟨rfl, by decide, rfl, by decide, by decide⟩

/-- C3: when the device-activation backend setup succeeds, the feature
value written back to every backend handle (each queue-pair index) is
exactly `acked_features &&& handle.get_features()`, the intersection of
the guest-acknowledged bitmask with what that handle reports. -/
theorem setup_applies_acked_intersection (env : VhostEnv) (mem : Nat) (net : Net)
    (vq_pairs : Nat)
    (hok : (do_device_activate env mem net vq_pairs).2 = .ok) :
    (do_device_activate env mem net vq_pairs).1.acked_features = net.acked_features ∧
    ∀ j, j < vq_pairs →
      ∃ m, (do_device_activate env mem net vq_pairs).1.handles[j]? =
        some { mem := m,
               features := some (net.acked_features &&& env.get_features j) } := by
  unfold do_device_activate at hok ⊢
  by_cases hemp : net.handles.isEmpty = true
  · rcases hcr : create_handles env mem net vq_pairs with ⟨net1, oe⟩
    obtain ⟨ht, hav, hac, hlen⟩ := create_handles_fields env mem vq_pairs net
    rw [hcr] at ht hav hac hlen
    cases oe with
    | some e => simp [hemp, hcr] at hok
    | none =>
      simp only [hemp, if_true, hcr] at hok ⊢
      refine ⟨(setup_fields env vq_pairs 0 net1).2.2.1.trans hac, fun j hj => ?_⟩
      obtain ⟨h, hh, hres⟩ :=
        setup_ok_features env vq_pairs 0 net1 hok j (Nat.zero_le j) (by omega)
      rw [hac] at hres
      exact ⟨h.mem, hres⟩
  · have hf : net.handles.isEmpty = false := by
      cases hb : net.handles.isEmpty with
      | false => rfl
      | true => exact absurd hb hemp
    rw [hf] at hok ⊢
    refine ⟨(setup_fields env vq_pairs 0 net).2.2.1, fun j hj => ?_⟩
    obtain ⟨h, hh, hres⟩ :=
      setup_ok_features env vq_pairs 0 net hok j (Nat.zero_le j) (by omega)
    exact ⟨h.mem, hres⟩

/-- Witness for C3: on the one-queue-pair sample device with acked
features 19 and a backend reporting 0xFFFF, the handle ends up with
exactly 19 &&& 0xFFFF. -/
theorem setup_applies_acked_intersection_witness :
    ∃ m, (do_device_activate allOkEnv 7 (Net.set_acked_features sampleNet 19) 1).1.handles[0]? =
      some { mem := m, features := some ((19 : Nat) &&& allOkEnv.get_features 0) } :=
  (setup_applies_acked_intersection allOkEnv 7
    (Net.set_acked_features sampleNet 19) 1 (by decide)).2 0 (by decide)

/-- C4: backend handles are created only when the handle list is empty,
so across any sequence of activation calls (there is no deactivation)
the number of handles never exceeds the number of taps (queue pairs),
and an activation that finds handles already present does not change
their number. -/
theorem handles_created_once_and_bounded :
    (∀ (env : VhostEnv) (mem : Nat) (net : Net), net.handles.isEmpty = false →
      (Net.activate env mem net).1.handles.length = net.handles.length) ∧
    (∀ (net : Net) (calls : List (VhostEnv × Nat)),
      net.handles.length ≤ net.taps.length →
      (activate_seq calls net).taps = net.taps ∧
      (activate_seq calls net).handles.length ≤ net.taps.length) := by
  constructor
  · intro env mem net hf
    exact (activate_fields env mem net).2.2.2.2 hf
  · intro net calls
    induction calls generalizing net with
    | nil => intro h; exact ⟨rfl, h⟩
    | cons c cs ih =>
      intro h
      obtain ⟨ht, _, _, hlen, _⟩ := activate_fields c.1 c.2 net
      have hb : (Net.activate c.1 c.2 net).1.handles.length ≤ net.taps.length :=
        le_trans hlen (by omega)
      have hstep : activate_seq (c :: cs) net =
          activate_seq cs (Net.activate c.1 c.2 net).1 := by
        simp [activate_seq]
      obtain ⟨iht, ihlen⟩ := ih (Net.activate c.1 c.2 net).1 (by rw [ht]; exact hb)
      rw [hstep]
      exact ⟨iht.trans ht, by rw [ht] at ihlen; exact ihlen⟩

/-- Witness for C4: one activation of the sample device keeps the taps
and stays within one handle per tap. -/
theorem handles_created_once_and_bounded_witness :
    (activate_seq [(allOkEnv, 7)] sampleNet).taps = sampleNet.taps ∧
    (activate_seq [(allOkEnv, 7)] sampleNet).handles.length ≤ sampleNet.taps.length :=
  handles_created_once_and_bounded.2 sampleNet [(allOkEnv, 7)] (by decide)

/-- C7 counterexample: the subset invariant
`acked_features & !avail_features == 0` holds for the freshly
constructed sample device, but `set_acked_features` stores its argument
verbatim, so passing the guest-TSO6 bit (which construction did not
advertise) violates the invariant: the claim that every exposed
operation, including `set_acked_features` with an arbitrary argument,
preserves it is false. -/
theorem set_acked_features_breaks_subset_invariant :
    new_with_tap (fun _ => allOkTapEnv) sampleTap none [256, 256] = .ok sampleNet ∧
    acked_subset_inv sampleNet ∧
    ¬ acked_subset_inv
      (Net.set_acked_features sampleNet (1 <<< VIRTIO_NET_F_GUEST_TSO6)) :=
  ⟨rfl, by unfold acked_subset_inv; decide, by unfold acked_subset_inv; decide⟩

/-- C7 amended: the subset invariant holds after construction and is
preserved by activation and by configuration writes; `set_acked_features`
stores its argument verbatim and therefore preserves the invariant
exactly when the argument is itself a subset of `avail_features` (an
arbitrary argument can violate it). -/
theorem acked_subset_invariant_amended :
    (∀ (tenvs : Nat → TapEnv) (tap : Tap) (gm : Option (List Nat))
      (qs : List Nat) (net : Net),
      new_with_tap tenvs tap gm qs = .ok net → acked_subset_inv net) ∧
    (∀ (net : Net) (a : Nat), a &&& u64_not net.avail_features = 0 →
      acked_subset_inv (Net.set_acked_features net a)) ∧
    (∀ (env : VhostEnv) (mem : Nat) (net : Net),
      acked_subset_inv net → acked_subset_inv (Net.activate env mem net).1) ∧
    (∀ (net : Net) (off : Nat) (data : List Nat),
      acked_subset_inv net → acked_subset_inv (Net.write_config net off data)) := by
  refine ⟨?_, ?_, ?_, ?_⟩
  · intro tenvs tap gm qs net h
    obtain ⟨_, hac, _, _, _⟩ := new_with_tap_ok tenvs tap gm qs net h
    unfold acked_subset_inv
    rw [hac]
    exact Nat.zero_and _
  · intro net a ha
    exact ha
  · intro env mem net hinv
    obtain ⟨_, hav, hac, _, _⟩ := activate_fields env mem net
    unfold acked_subset_inv at hinv ⊢
    rw [hav, hac]
    exact hinv
  · intro net off data hinv
    exact hinv

/-- Witness for the amended C7: storing acked features 2 (guest
checksum, advertised by construction) keeps the invariant on the sample
device. -/
theorem acked_subset_invariant_amended_witness :
    acked_subset_inv (Net.set_acked_features sampleNet 2) :=
  acked_subset_invariant_amended.2.1 sampleNet 2 (by decide)

/-- C8: a successfully constructed device has one tap per queue pair,
and its advertised features contain both the multi-queue and the
control-queue bit when there is more than one queue pair, and neither
when there is exactly one queue pair. -/
theorem avail_features_mq_bits_iff_multiqueue (tenvs : Nat → TapEnv) (tap : Tap)
    (gm : Option (List Nat)) (qs : List Nat) (net : Net)
    (h : new_with_tap tenvs tap gm qs = .ok net) :
    net.taps.length = qs.length / 2 ∧
    (1 < net.taps.length →
      net.avail_features &&& (1 <<< VIRTIO_NET_F_MQ) ≠ 0 ∧
      net.avail_features &&& (1 <<< VIRTIO_NET_F_CTRL_VQ) ≠ 0) ∧
    (net.taps.length = 1 →
      net.avail_features &&& (1 <<< VIRTIO_NET_F_MQ) = 0 ∧
      net.avail_features &&& (1 <<< VIRTIO_NET_F_CTRL_VQ) = 0) := by
  obtain ⟨hlen, _, _, _, hav⟩ := new_with_tap_ok tenvs tap gm qs net h
  refine ⟨hlen, fun hgt => ?_, fun he1 => ?_⟩
  · rw [hlen] at hgt
    rw [hav, if_pos (by omega)]
    exact ⟨by decide, by decide⟩
  · rw [hlen] at he1
    rw [hav, if_neg (by omega)]
    exact ⟨by decide, by decide⟩

/-- Witness for C8: the two-queue-pair sample device advertises both
multi-queue bits. -/
theorem avail_features_mq_bits_iff_multiqueue_witness :
    sampleNetMq.avail_features &&& (1 <<< VIRTIO_NET_F_MQ) ≠ 0 ∧
    sampleNetMq.avail_features &&& (1 <<< VIRTIO_NET_F_CTRL_VQ) ≠ 0 :=
  (avail_features_mq_bits_iff_multiqueue (fun _ => allOkTapEnv) sampleTapMq none
    [256, 256, 256, 256] sampleNetMq rfl).2.1 (by decide)

/-- C9: divergence witness for configuration writes.  `write_config` as
written is a no-op on every input: in particular an in-bounds write of
six MAC bytes at offset 0 leaves the configuration block and the cached
`guest_mac` unchanged, instead of copying the bytes and re-deriving
`guest_mac` as the claim requires (the copy and the re-derivation are
commented out in the source). -/
theorem write_config_is_noop :
    (∀ (net : Net) (off : Nat) (data : List Nat),
      Net.write_config net off data = net) ∧
    Net.write_config sampleNet 0 [170, 187, 204, 221, 238, 255] = sampleNet ∧
    (Net.write_config sampleNet 0 [170, 187, 204, 221, 238, 255]).config_space =
      sampleNet.config_space ∧
    (Net.write_config sampleNet 0 [170, 187, 204, 221, 238, 255]).guest_mac =
      sampleNet.guest_mac :=
  ⟨fun _ _ _ => rfl, rfl, rfl, rfl⟩

/-- C10: a guest configuration read transfers nothing: for every offset
and destination buffer, `read_config` leaves the device and the buffer
exactly as they were. -/
theorem read_config_transfers_nothing (net : Net) (off : Nat) (data : List Nat) :
    Net.read_config net off data = (net, data) :=
  rfl

end VhostNetModel
